import Mathlib

/-!
Shallow embedding of the UYTCAB heuristic tabular field locator (`src/map.py`).

The program opens a PDF, reads the tables of its first page as row-major grids
of optional text cells, locates a keyword-identified intersection cell, cleans
its numeric text, resolves an associated date through a cascading search, and
serializes one `(date, value)` record per successfully processed document.

A PDF file is modeled by the data the external collaborators extract from it:
the list of grids `pdfplumber` yields for its first page, and the document
date that `extract_date_from_pdf` resolves from the first page's raw text
(no claim concerns the internals of that regex scan, so its result is carried
as a field of the document model).  Everything else is translated function by
function from `src/map.py`.

Python specifics modeled explicitly:
* `re`'s `\d` on `str` patterns matches the Unicode category Nd (decimal
  digits), not only ASCII; `int` likewise accepts any Nd digits.  `ndZeros`
  lists the first code point K ("digit zero") of each ten-code-point Nd run
  `K .. K+9`.
* `str.strip()` strips the characters Python considers whitespace
  (`pySpaceCodes`).
* Cell truthiness: a cell is "truthy" when it is present and non-empty.
-/

/-- First code points of the runs of ten consecutive decimal digits that make
up the Unicode category Nd (so a code point `n` is a Python `\d` digit iff
`K ≤ n < K + 10` for some `K` in this list, with digit value `n - K`). -/
def ndZeros : List Nat :=
  [0x30, 0x660, 0x6F0, 0x7C0, 0x966, 0x9E6, 0xA66, 0xAE6, 0xB66, 0xBE6,
   0xC66, 0xCE6, 0xD66, 0xDE6, 0xE50, 0xED0, 0xF20, 0x1040, 0x1090, 0x17E0,
   0x1810, 0x1946, 0x19D0, 0x1A80, 0x1A90, 0x1B50, 0x1BB0, 0x1C40, 0x1C50,
   0xA620, 0xA8D0, 0xA900, 0xA9D0, 0xA9F0, 0xAA50, 0xABF0, 0xFF10,
   0x104A0, 0x10D30, 0x11066, 0x110F0, 0x11136, 0x111D0, 0x112F0, 0x11450,
   0x114D0, 0x11650, 0x116C0, 0x11730, 0x118E0, 0x11950, 0x11C50, 0x11D50,
   0x11DA0, 0x16A60, 0x16B50, 0x1D7CE, 0x1D7D8, 0x1D7E2, 0x1D7EC, 0x1D7F6,
   0x1E140, 0x1E2F0, 0x1E950, 0x1FBF0]

/-- Whether the code point `n` is a decimal digit for Python's `\d`. -/
def ndAny (n : Nat) : Bool :=
  ndZeros.any (fun z => decide (z ≤ n ∧ n < z + 10))

/-- Whether the character matches Python's `\d` (Unicode decimal digit). -/
def pythonIsDigit (c : Char) : Bool :=
  ndAny c.toNat

/-- Digit value (0-9) of a code point inside an Nd run, 0 elsewhere. -/
def pyDigitValN (n : Nat) : Nat :=
  (ndZeros.findSome? (fun z => if z ≤ n ∧ n < z + 10 then some (n - z) else none)).getD 0

/-- Digit value of a Python decimal-digit character. -/
def pyDigitVal (c : Char) : Nat :=
  pyDigitValN c.toNat

/-- Code points Python's `str.strip()` / `str.isspace()` treat as whitespace. -/
def pySpaceCodes : List Nat :=
  [0x09, 0x0A, 0x0B, 0x0C, 0x0D, 0x1C, 0x1D, 0x1E, 0x1F, 0x20, 0x85, 0xA0,
   0x1680, 0x2000, 0x2001, 0x2002, 0x2003, 0x2004, 0x2005, 0x2006, 0x2007,
   0x2008, 0x2009, 0x200A, 0x2028, 0x2029, 0x202F, 0x205F, 0x3000]

/-- Whether the character is whitespace for Python's `str.strip()`. -/
def pythonIsSpace (c : Char) : Bool :=
  pySpaceCodes.contains c.toNat

/-- Python `str.strip()`: drop leading and trailing whitespace. -/
def pyStripList (cs : List Char) : List Char :=
  ((cs.dropWhile pythonIsSpace).reverse.dropWhile pythonIsSpace).reverse

/-- Python's substring test `needle in hay` on character lists. -/
def containsSubList (needle : List Char) : List Char → Bool
  | [] => needle.isEmpty
  | c :: t => needle.isPrefixOf (c :: t) || containsSubList needle t

/-- Python's substring test `needle in hay` on strings. -/
def containsSub (needle hay : String) : Bool :=
  containsSubList needle.data hay.data

/-- Base-10 value of a list of Python decimal-digit characters, as computed by
Python's `int` on the digit string. -/
def digitsVal (ds : List Char) : Nat :=
  ds.foldl (fun a c => 10 * a + pyDigitVal c) 0

/-- `clean_numeric_value` from `src/map.py`, on the character list of the cell
text.  `if not value_str` rejects the empty string; `str.strip()` is applied;
the negativity flag is the triangle glyph anywhere in the stripped text or a
leading minus; `'+'` characters are removed; `re.sub(r'[^\d]', '', ...)`
keeps exactly the `\d` digits; `int` parses them (it cannot fail on a
non-empty digit string, so the `except ValueError` branch is dead); a
positive magnitude is negated when the flag is set. -/
def cleanNumericCore (cs : List Char) : Option Int :=
  if cs.isEmpty then none
  else
    let t := pyStripList cs
    let isNeg := containsSubList ['▲'] t || ['-'].isPrefixOf t
    let t2 := t.filter (fun c => c ≠ '+')
    let ds := t2.filter pythonIsDigit
    if ds.isEmpty then none
    else
      let n : Int := Int.ofNat (digitsVal ds)
      some (if isNeg && decide (0 < n) then -n else n)

/-- `clean_numeric_value` from `src/map.py` (the Numeric Normalizer). -/
def clean_numeric_value (s : String) : Option Int :=
  cleanNumericCore s.data

/-- A table cell as produced by `pdfplumber.extract_tables`: text or `None`. -/
abbrev Cell := Option String

/-- One row of a grid. -/
abbrev Row := List Cell

/-- A row-major grid of optional text cells (one extracted table). -/
abbrev Grid := List Row

/-- The `datetime` value returned by `extract_date_from_pdf` (only the year
is consumed by the rest of the program). -/
structure DDate where
  year : Nat
  month : Nat
  day : Nat
deriving DecidableEq

/-- A PDF document, modeled by the data the parsing collaborator extracts
from it: the tables of its first page, and the document date that
`extract_date_from_pdf` resolves from the first page's text (`none` when no
date pattern matches). -/
structure Document where
  tables : List Grid
  docDate : Option DDate

/-- `HEADER_1` from `src/map.py`: the series-identifier output label. -/
def HEADER_1 : String := "UYTCAB.DEMANDFORECAST.CHANGECURRBAL.JPN.B"

/-- `HEADER_2` from `src/map.py`: the series-description output label. -/
def HEADER_2 : String := "Supply and demand forecast: Change in current account balance"

/-- `TARGET_ROW_KEYWORDS` from `src/map.py` (the subject keyword set). -/
def TARGET_ROW_KEYWORDS : List String := ["財政"]

/-- `TARGET_COLUMN_KEYWORDS` from `src/map.py` (the metric keyword set). -/
def TARGET_COLUMN_KEYWORDS : List String := ["当社需給予想", "需給予想"]

/-- The keyword matcher `cell and any(keyword in str(cell) for keyword in kws)`:
the cell is truthy (present and non-empty) and contains some keyword as a
literal substring. -/
def cellMatches (kws : List String) (cell : Cell) : Bool :=
  match cell with
  | some s => !s.data.isEmpty && kws.any (fun k => containsSub k s)
  | none => false

/-- Whether some cell of the row matches the keyword set. -/
def rowMatches (kws : List String) (row : Row) : Bool :=
  row.any (cellMatches kws)

/-- Gregorian leap-year test, as in Python's `datetime`. -/
def isLeap (y : Nat) : Bool :=
  y % 4 = 0 && (y % 100 ≠ 0 || y % 400 = 0)

/-- Days in a month, as in Python's `datetime`. -/
def daysInMonth (y m : Nat) : Nat :=
  if m = 2 then (if isLeap y then 29 else 28)
  else if m = 4 || m = 6 || m = 9 || m = 11 then 30
  else 31

/-- Whether `datetime(year, month, day)` succeeds (its constructor requires
`1 ≤ year ≤ 9999`, `1 ≤ month ≤ 12`, `1 ≤ day ≤` days in the month). -/
def isValidDate (y m d : Nat) : Bool :=
  1 ≤ y && y ≤ 9999 && 1 ≤ m && m ≤ 12 && 1 ≤ d && d ≤ daysInMonth y m

/-- `strftime('%Y-%m-%d')` for an in-range date: zero-padded 4-digit year and
2-digit month and day. -/
def isoFormat (y m d : Nat) : String :=
  String.mk [Char.ofNat (48 + y / 1000 % 10), Char.ofNat (48 + y / 100 % 10),
             Char.ofNat (48 + y / 10 % 10), Char.ofNat (48 + y % 10), '-',
             Char.ofNat (48 + m / 10 % 10), Char.ofNat (48 + m % 10), '-',
             Char.ofNat (48 + d / 10 % 10), Char.ofNat (48 + d % 10)]

/-- The day part `(\d{1,2})日` of the cell-date pattern, matched at the head
of `cs` with the month value `m` already parsed: a greedy two-digit attempt
followed by `日`, backtracking to one digit followed by `日`. -/
def matchDay (m : Nat) (cs : List Char) : Option (Nat × Nat) :=
  match cs with
  | d1 :: rest =>
    if pythonIsDigit d1 then
      match rest with
      | d2 :: rest2 =>
        if pythonIsDigit d2 then
          match rest2 with
          | '日' :: _ => some (m, 10 * pyDigitVal d1 + pyDigitVal d2)
          | _ =>
            match rest with
            | '日' :: _ => some (m, pyDigitVal d1)
            | _ => none
        else
          match rest with
          | '日' :: _ => some (m, pyDigitVal d1)
          | _ => none
      | [] => none
    else none
  | [] => none

/-- The pattern `(\d{1,2})月(\d{1,2})日` matched at the head of `cs`
(Python regex semantics: greedy two-digit month with backtracking to one
digit, then `月`, then the day part). -/
def matchMonthDayAt (cs : List Char) : Option (Nat × Nat) :=
  match cs with
  | c1 :: rest =>
    if pythonIsDigit c1 then
      match rest with
      | c2 :: rest2 =>
        if pythonIsDigit c2 then
          match
            (match rest2 with
             | '月' :: rest3 => matchDay (10 * pyDigitVal c1 + pyDigitVal c2) rest3
             | _ => none) with
          | some md => some md
          | none =>
            match rest with
            | '月' :: rest3 => matchDay (pyDigitVal c1) rest3
            | _ => none
        else
          match rest with
          | '月' :: rest3 => matchDay (pyDigitVal c1) rest3
          | _ => none
      | [] => none
    else none
  | [] => none

/-- `re.search` for `(\d{1,2})月(\d{1,2})日`: leftmost match wins. -/
def searchMonthDay : List Char → Option (Nat × Nat)
  | [] => none
  | c :: rest =>
    match matchMonthDayAt (c :: rest) with
    | some md => some md
    | none => searchMonthDay rest

/-- The `(month, day)` groups of the first cell-date pattern match in `s`. -/
def findMonthDay (s : String) : Option (Nat × Nat) :=
  searchMonthDay s.data

/-- `extract_date_from_cell` from `src/map.py`: reject falsy text, search for
the `月/日` pattern, build `datetime(year, month, day)` (returning `None` on
`ValueError`, i.e. on an invalid calendar date), and format it as ISO. -/
def extract_date_from_cell (s : String) (year : Nat) : Option String :=
  if s.data.isEmpty then none
  else
    match findMonthDay s with
    | some (m, d) => if isValidDate year m d then some (isoFormat year m d) else none
    | none => none

/-- One probe of the Date Resolution Cascade: the body shared by its three
strategies in `extract_forecast_date_universal`.  Row index `i` (an integer:
strategy 2 can probe below row zero) must be in bounds, the cell at the fixed
column must be truthy, and its text must resolve through
`extract_date_from_cell`. -/
def tryRowDate (table : Grid) (c : Nat) (year : Nat) (i : Int) : Option String :=
  if i < 0 then none
  else
    match table.get? i.toNat with
    | some row =>
      match row.get? c with
      | some (some s) => if s.data.isEmpty then none else extract_date_from_cell s year
      | some none => none
      | none => none
    | none => none

/-- `extract_forecast_date_universal` from `src/map.py` (the Date Resolution
Cascade).  It aborts when the document date is absent; otherwise it probes,
first success winning: the header cell itself; the rows at offsets
`[1, -1, 2, -2, 3]` from the header row; and the rows
`range(max(0, header-5), header)` in ascending order.  The document date is
passed as the value `extract_date_from_pdf` returned for this document. -/
def extract_forecast_date_universal (table : Grid) (h c : Nat) (docDate : Option DDate) :
    Option String :=
  match docDate with
  | none => none
  | some dd =>
    match tryRowDate table c dd.year (Int.ofNat h) with
    | some d => some d
    | none =>
      match [(1 : Int), -1, 2, -2, 3].findSome?
          (fun o => tryRowDate table c dd.year (Int.ofNat h + o)) with
      | some d => some d
      | none =>
        ((List.range h).drop (h - 5)).findSome?
          (fun i => tryRowDate table c dd.year (Int.ofNat i))

/-- Step 1 of `find_fiscal_forecast_value`: every row among the first
`min(40, len(table))` rows containing a cell that matches the metric
(column) keyword set, each recorded with its row index. -/
def headerCandidates (table : Grid) : List (Nat × Row) :=
  ((table.take 40).enum).filter (fun p => rowMatches TARGET_COLUMN_KEYWORDS p.2)

/-- Step 2 of `find_fiscal_forecast_value`, the `enumerate(table)` loop from
index `k`: the first row containing a cell that matches the subject (row)
keyword set. -/
def findTargetRowAux (k : Nat) : List Row → Option (Nat × Row)
  | [] => none
  | r :: rest =>
    if rowMatches TARGET_ROW_KEYWORDS r then some (k, r)
    else findTargetRowAux (k + 1) rest

/-- Step 2 of `find_fiscal_forecast_value`: the unique data row. -/
def findTargetRow (table : Grid) : Option (Nat × Row) :=
  findTargetRowAux 0 table

/-- The body of the innermost loop of `find_fiscal_forecast_value`, after a
metric-matching column `cIdx` of header row `hIdx` is found: the data-row cell
at that column must exist, be non-`None` and not whitespace-only, clean to a
numeric value, and yield a date from the cascade; any failure falls through
to the next matching column (`continue`). -/
def tryIntersect (doc : Document) (table : Grid) (tRow : Row) (hIdx cIdx : Nat) :
    Option (Int × String) :=
  match tRow.get? cIdx with
  | some (some s) =>
    if (pyStripList s.data).isEmpty then none
    else
      match clean_numeric_value s with
      | some v =>
        match extract_forecast_date_universal table hIdx cIdx doc.docDate with
        | some d => some (v, d)
        | none => none
      | none => none
  | some none => none
  | none => none

/-- The `for col_idx, cell in enumerate(header_row)` loop of step 3: scan the
header row left to right, trying `tryIntersect` at every metric-matching
column, first full success winning. -/
def scanColumns (doc : Document) (table : Grid) (tRow : Row) (hIdx : Nat) (hRow : Row) :
    Option (Int × String) :=
  (hRow.enum).findSome?
    (fun p => if cellMatches TARGET_COLUMN_KEYWORDS p.2 then tryIntersect doc table tRow hIdx p.1 else none)

/-- One header candidate of step 3: skipped (`continue`) unless it sits
strictly above the data row. -/
def tryCandidate (doc : Document) (table : Grid) (tRow : Row) (tIdx hIdx : Nat) (hRow : Row) :
    Option (Int × String) :=
  if tIdx ≤ hIdx then none else scanColumns doc table tRow hIdx hRow

/-- The body of the `for table_idx, table in enumerate(tables)` loop of
`find_fiscal_forecast_value`: tables with fewer than two rows are skipped;
then steps 1-3 run on the grid. -/
def tryTable (doc : Document) (table : Grid) : Option (Int × String) :=
  if table.length < 2 then none
  else
    let candidates := headerCandidates table
    match findTargetRow table with
    | none => none
    | some (tIdx, tRow) =>
      candidates.findSome? (fun p => tryCandidate doc table tRow tIdx p.1 p.2)

/-- `find_fiscal_forecast_value` from `src/map.py` (the Intersection Locator):
scan all first-page tables and return `(value, date_string)`, or
`(None, None)` when no table yields a joint success. -/
def find_fiscal_forecast_value (doc : Document) : Option Int × Option String :=
  match doc.tables.findSome? (fun table => tryTable doc table) with
  | some (v, d) => (some v, some d)
  | none => (none, none)

/-- The per-document output record: `HEADER_1` maps to the date string and
`HEADER_2` to the integer value. -/
structure MappedData where
  date : String
  value : Int
deriving DecidableEq

/-- `create_mapped_data` from `src/map.py`: `None` (the document is skipped
with a warning) unless both the value and the date were extracted. -/
def create_mapped_data (doc : Document) : Option MappedData :=
  match find_fiscal_forecast_value doc with
  | (some v, some d) => some { date := d, value := v }
  | (some _, none) => none
  | (none, _) => none

/-- `create_mapped_data` invoked on the result of opening a PDF file.
`pdfplumber.open` raises on a missing or corrupt file, and `src/map.py`
contains no `try`/`except`, so an open failure propagates to the caller:
the fallible open is modeled as `Except Unit Document` and the error is
re-raised. -/
def createMappedDataE (src : Except Unit Document) : Except Unit (Option MappedData) :=
  match src with
  | Except.error e => Except.error e
  | Except.ok doc => Except.ok (create_mapped_data doc)

/-- The `for pdf_file in pdf_files` loop of `process_multiple_pdfs` from
`src/map.py`: each document is processed in order; a document yielding no
data is skipped (`all_data` is unchanged); an uncaught exception from
opening a document aborts the whole loop. -/
def processMultiplePdfs : List (Except Unit Document) → Except Unit (List MappedData)
  | [] => Except.ok []
  | s :: rest =>
    match createMappedDataE s with
    | Except.error e => Except.error e
    | Except.ok none => processMultiplePdfs rest
    | Except.ok (some d) =>
      match processMultiplePdfs rest with
      | Except.error e => Except.error e
      | Except.ok ds => Except.ok (d :: ds)

/-- The data-line loop of `save_custom_csv`: one `f"{date},{value}\n"` write
per record, in order. -/
def dataLines (rows : List MappedData) : String :=
  rows.foldl (fun acc r => acc ++ (r.date ++ "," ++ toString r.value ++ "\n")) ""

/-- `save_custom_csv` from `src/map.py`: the file contents written for the
result set, namely `,HEADER_1`, then `,HEADER_2`, then one `date,value` line
per record. -/
def saveCustomCsv (rows : List MappedData) : String :=
  ("," ++ HEADER_1 ++ "\n") ++ (("," ++ HEADER_2 ++ "\n") ++ dataLines rows)

/-- Joining lines, each terminated by a newline. -/
def linesJoined (lines : List String) : String :=
  lines.foldr (fun l acc => l ++ "\n" ++ acc) ""

/-- The end-to-end grid from the spec's test scenario. -/
def gridA : Grid :=
  [[some "x", some "当社需給予想", some "y"],
   [some "財政", some "▲1,234", some "z"],
   [some "", some "10月3日", some ""]]

/-- The data row of `gridA`. -/
def rowA1 : Row := [some "財政", some "▲1,234", some "z"]

/-- A document whose first page yields `gridA` and a 2024 document date. -/
def docA : Document :=
  { tables := [gridA], docDate := some { year := 2024, month := 5, day := 16 } }

/-- The extraction result of `docA`. -/
def resA : MappedData := { date := "2024-10-03", value := -1234 }

/-- A document yielding no tables (and no date): a not-found document. -/
def docB : Document := { tables := [], docDate := none }

/-- The candidate row order claimed for the Date Resolution Cascade, written
from the claim's words: the header row itself; the rows at header offsets
`+1, -1, +2, -2, +3` in that order; then every row from `header - 5` up to
`header - 1` in ascending order (rows below zero simply cannot hold a date). -/
def cascadeClaimOrder (h : Nat) : List Int :=
  [(h : Int), (h : Int) + 1, (h : Int) - 1, (h : Int) + 2, (h : Int) - 2, (h : Int) + 3,
   (h : Int) - 5, (h : Int) - 4, (h : Int) - 3, (h : Int) - 2, (h : Int) - 1]

/-- The Numeric Normalizer as the claim literally words it: absent when the
input has no ASCII digit; magnitude the concatenation of the input's ASCII
digits; negated exactly when the raw input contains the triangle glyph or
starts with a minus sign (zero never negated). -/
def claimNormalize (s : String) : Option Int :=
  let ds := s.data.filter Char.isDigit
  if ds.isEmpty then none
  else
    let n : Int := Int.ofNat (digitsVal ds)
    let isNeg := containsSubList ['▲'] s.data || ['-'].isPrefixOf s.data
    some (if isNeg && decide (0 < n) then -n else n)

/-- The Numeric Normalizer as the amended claim words it: absent when the
input contains no Unicode decimal digit (Python's `\d`; in particular for
empty or whitespace-only input); otherwise the magnitude is the base-10
number formed by the input's decimal digits in order, negated exactly when
the whitespace-stripped input contains the triangle glyph or starts with a
minus sign, a zero magnitude never being negated. -/
def amendedNormalizeCore (cs : List Char) : Option Int :=
  let ds := cs.filter pythonIsDigit
  if ds.isEmpty then none
  else
    let t := pyStripList cs
    let isNeg := containsSubList ['▲'] t || ['-'].isPrefixOf t
    let n : Int := Int.ofNat (digitsVal ds)
    some (if isNeg && decide (0 < n) then -n else n)

/-- String-level wrapper of `amendedNormalizeCore`. -/
def amendedNormalize (s : String) : Option Int :=
  amendedNormalizeCore s.data

/-- Step 3's inner scan as claim C4 words it: only the first metric-matching
column of the header candidate is recorded, and the data-row cell is read at
that single column; no further column of the same header row is tried. -/
def claimScanColumns (doc : Document) (table : Grid) (tRow : Row) (hIdx : Nat) (hRow : Row) :
    Option (Int × String) :=
  match (hRow.enum).find? (fun p => cellMatches TARGET_COLUMN_KEYWORDS p.2) with
  | some p => tryIntersect doc table tRow hIdx p.1
  | none => none

/-- `tryTable` with the inner scan replaced by claim C4's reading. -/
def claimTryTable (doc : Document) (table : Grid) : Option (Int × String) :=
  if table.length < 2 then none
  else
    match findTargetRow table with
    | none => none
    | some (tIdx, tRow) =>
      (headerCandidates table).findSome?
        (fun p => if tIdx ≤ p.1 then none else claimScanColumns doc table tRow p.1 p.2)

/-- `find_fiscal_forecast_value` with the inner scan replaced by claim C4's
reading. -/
def claimFind (doc : Document) : Option Int × Option String :=
  match doc.tables.findSome? (fun table => claimTryTable doc table) with
  | some (v, d) => (some v, some d)
  | none => (none, none)

/-- A grid whose single header candidate has two metric-matching columns:
the first matching column's data cell has no digits, the second one carries
both the value and (one row below the header) the date. -/
def grid4 : Grid :=
  [[some "需給予想", some "需給予想"],
   [some "財政", some "7月3日 12"]]

/-- A document carrying `grid4` and a 2024 document date. -/
def doc4 : Document :=
  { tables := [grid4], docDate := some { year := 2024, month := 1, day := 1 } }

/-- A grid in which a numeric intersection value is located but no cascade
probe ever finds a date: the intersection cell `財政 7` cleans to `7`, yet
no cell anywhere carries a `月/日` date. -/
def gridC : Grid :=
  [[some "需給予想"],
   [some "財政 7"]]

/-- A document carrying `gridC`, with its publication date present. -/
def docC : Document :=
  { tables := [gridC], docDate := some { year := 2024, month := 5, day := 16 } }

/-- No Python whitespace code point is a decimal digit. -/
theorem ndAny_space_false : ∀ n ∈ pySpaceCodes, ndAny n = false := by decide

/-- A character stripped by `str.strip()` is never a `\d` digit. -/
theorem space_not_digit : ∀ c : Char, pythonIsSpace c = true → pythonIsDigit c = false := by
  intro c hc
  have hm : c.toNat ∈ pySpaceCodes := by
    have := hc
    unfold pythonIsSpace at this
    exact List.mem_of_elem_eq_true this
  exact ndAny_space_false _ hm

/-- Dropping a prefix of characters that can never satisfy `p` does not
change a `filter p`. -/
theorem filter_dropWhile_of_imp (p q : Char → Bool)
    (hpq : ∀ c, q c = true → p c = false) :
    ∀ l : List Char, (l.dropWhile q).filter p = l.filter p := by
  intro l
  induction l with
  | nil => rfl
  | cons a t ih =>
    by_cases hqa : q a = true
    · rw [List.dropWhile_cons_of_pos hqa, ih, List.filter_cons_of_neg]
      simp [hpq a hqa]
    · rw [List.dropWhile_cons_of_neg (by simpa using hqa)]

/-- `str.strip()` does not change the subsequence of decimal digits. -/
theorem filter_digit_pyStrip (cs : List Char) :
    (pyStripList cs).filter pythonIsDigit = cs.filter pythonIsDigit := by
  unfold pyStripList
  rw [List.filter_reverse, filter_dropWhile_of_imp _ _ space_not_digit,
    List.filter_reverse, List.reverse_reverse,
    filter_dropWhile_of_imp _ _ space_not_digit]

/-- Removing `'+'` characters does not change the subsequence of decimal
digits. -/
theorem filter_digit_plus (t : List Char) :
    (t.filter (fun c => c ≠ '+')).filter pythonIsDigit = t.filter pythonIsDigit := by
  rw [List.filter_filter]
  apply List.filter_congr
  intro a _
  by_cases ha : a = '+'
  · subst ha
    simp [show pythonIsDigit '+' = false from by decide]
  · simp [ha]

/-- Claim C2 (amended): the Numeric Normalizer agrees everywhere with the
amended specification `amendedNormalize` — absent exactly when the input has
no Unicode decimal digit (hence for empty or whitespace-only input); the
magnitude is formed from the input's decimal digits in order; the sign is
negative exactly when the whitespace-stripped input contains the triangle
glyph or starts with a minus sign and the magnitude is non-zero.  Being a
total Lean function, it throws on no input. -/
theorem c2_theorem : ∀ s : String, clean_numeric_value s = amendedNormalize s := by
  intro s
  obtain ⟨cs⟩ := s
  show cleanNumericCore cs = amendedNormalizeCore cs
  cases cs with
  | nil => rfl
  | cons a t =>
    unfold cleanNumericCore amendedNormalizeCore
    simp only [List.isEmpty_cons, Bool.false_eq_true, if_false]
    rw [filter_digit_plus, filter_digit_pyStrip]

/-- Claim C2 as stated fails: on the input `" -５"` (space, minus, full-width
five) the code returns `-5` — Python's `\d` accepts the full-width digit and
the minus sign is tested after `str.strip()` — while the claim, which only
admits ASCII digits and a minus at the very start of the raw input, demands
absent. -/
theorem c2_counterexample :
    clean_numeric_value " -５" = some (-5) ∧ claimNormalize " -５" = none := by
  exact ⟨by decide, by decide⟩

/-- A probe below row zero never yields a date. -/
theorem tryRowDate_neg (table : Grid) (c year : Nat) {i : Int} (hi : i < 0) :
    tryRowDate table c year i = none := by
  unfold tryRowDate
  rw [if_pos hi]

theorem block2_generic {β : Type} (f : Int → Option β) (h : Nat) :
    [(1 : Int), -1, 2, -2, 3].findSome? (fun o => f (Int.ofNat h + o)) =
      [(h : Int) + 1, (h : Int) - 1, (h : Int) + 2, (h : Int) - 2, (h : Int) + 3].findSome? f := by
  have hl : [(h : Int) + 1, (h : Int) - 1, (h : Int) + 2, (h : Int) - 2, (h : Int) + 3] =
      [(1 : Int), -1, 2, -2, 3].map (fun o => Int.ofNat h + o) := by
    simp only [Int.ofNat_eq_coe, List.map_cons, List.map_nil, List.cons.injEq, true_and,
      and_true]
    all_goals omega
  rw [hl, List.findSome?_map]
  rfl

theorem block3_generic {β : Type} (f : Int → Option β) (hf : ∀ i : Int, i < 0 → f i = none)
    (h : Nat) :
    ((List.range h).drop (h - 5)).findSome? (fun i => f (Int.ofNat i)) =
      [(h : Int) - 5, (h : Int) - 4, (h : Int) - 3, (h : Int) - 2, (h : Int) - 1].findSome? f := by
  have hnone : ∀ l : List Int, (∀ i ∈ l, i < 0) → l.findSome? f = none := by
    intro l hl
    rw [List.findSome?_eq_none_iff]
    intro i hi
    exact hf i (hl i hi)
  have hmap : ∀ l : List Nat,
      (l.map Int.ofNat).findSome? f = l.findSome? (fun i => f (Int.ofNat i)) := by
    intro l
    rw [List.findSome?_map]
    rfl
  match h with
  | 0 =>
    have hneg : ∀ i ∈ [((0 : Nat) : Int) - 5, ((0 : Nat) : Int) - 4, ((0 : Nat) : Int) - 3,
        ((0 : Nat) : Int) - 2, ((0 : Nat) : Int) - 1], i < 0 := by
      intro i hi
      simp only [List.mem_cons, List.not_mem_nil, or_false] at hi
      rcases hi with rfl | rfl | rfl | rfl | rfl <;> omega
    rw [show (List.range 0).drop (0 - 5) = ([] : List Nat) from rfl, hnone _ hneg]
    rfl
  | 1 =>
    have hsplit : [((1 : Nat) : Int) - 5, ((1 : Nat) : Int) - 4, ((1 : Nat) : Int) - 3,
        ((1 : Nat) : Int) - 2, ((1 : Nat) : Int) - 1] =
        [((1 : Nat) : Int) - 5, ((1 : Nat) : Int) - 4, ((1 : Nat) : Int) - 3,
          ((1 : Nat) : Int) - 2] ++ [(0 : Nat)].map Int.ofNat := by
      simp only [Int.ofNat_eq_coe, List.map_cons, List.map_nil, List.cons_append,
        List.nil_append, List.cons.injEq, true_and, and_true]
      all_goals omega
    have hneg : ∀ i ∈ [((1 : Nat) : Int) - 5, ((1 : Nat) : Int) - 4, ((1 : Nat) : Int) - 3,
        ((1 : Nat) : Int) - 2], i < 0 := by
      intro i hi
      simp only [List.mem_cons, List.not_mem_nil, or_false] at hi
      rcases hi with rfl | rfl | rfl | rfl <;> omega
    rw [show (List.range 1).drop (1 - 5) = [(0 : Nat)] from rfl, hsplit,
      List.findSome?_append, hnone _ hneg, Option.none_or, hmap]
  | 2 =>
    have hsplit : [((2 : Nat) : Int) - 5, ((2 : Nat) : Int) - 4, ((2 : Nat) : Int) - 3,
        ((2 : Nat) : Int) - 2, ((2 : Nat) : Int) - 1] =
        [((2 : Nat) : Int) - 5, ((2 : Nat) : Int) - 4, ((2 : Nat) : Int) - 3] ++
          [(0 : Nat), 1].map Int.ofNat := by
      simp only [Int.ofNat_eq_coe, List.map_cons, List.map_nil, List.cons_append,
        List.nil_append, List.cons.injEq, true_and, and_true]
      all_goals omega
    have hneg : ∀ i ∈ [((2 : Nat) : Int) - 5, ((2 : Nat) : Int) - 4, ((2 : Nat) : Int) - 3],
        i < 0 := by
      intro i hi
      simp only [List.mem_cons, List.not_mem_nil, or_false] at hi
      rcases hi with rfl | rfl | rfl <;> omega
    rw [show (List.range 2).drop (2 - 5) = [(0 : Nat), 1] from rfl, hsplit,
      List.findSome?_append, hnone _ hneg, Option.none_or, hmap]
  | 3 =>
    have hsplit : [((3 : Nat) : Int) - 5, ((3 : Nat) : Int) - 4, ((3 : Nat) : Int) - 3,
        ((3 : Nat) : Int) - 2, ((3 : Nat) : Int) - 1] =
        [((3 : Nat) : Int) - 5, ((3 : Nat) : Int) - 4] ++
          [(0 : Nat), 1, 2].map Int.ofNat := by
      simp only [Int.ofNat_eq_coe, List.map_cons, List.map_nil, List.cons_append,
        List.nil_append, List.cons.injEq, true_and, and_true]
      all_goals omega
    have hneg : ∀ i ∈ [((3 : Nat) : Int) - 5, ((3 : Nat) : Int) - 4], i < 0 := by
      intro i hi
      simp only [List.mem_cons, List.not_mem_nil, or_false] at hi
      rcases hi with rfl | rfl <;> omega
    rw [show (List.range 3).drop (3 - 5) = [(0 : Nat), 1, 2] from rfl, hsplit,
      List.findSome?_append, hnone _ hneg, Option.none_or, hmap]
  | 4 =>
    have hsplit : [((4 : Nat) : Int) - 5, ((4 : Nat) : Int) - 4, ((4 : Nat) : Int) - 3,
        ((4 : Nat) : Int) - 2, ((4 : Nat) : Int) - 1] =
        [((4 : Nat) : Int) - 5] ++ [(0 : Nat), 1, 2, 3].map Int.ofNat := by
      simp only [Int.ofNat_eq_coe, List.map_cons, List.map_nil, List.cons_append,
        List.nil_append, List.cons.injEq, true_and, and_true]
      all_goals omega
    have hneg : ∀ i ∈ [((4 : Nat) : Int) - 5], i < 0 := by
      intro i hi
      simp only [List.mem_cons, List.not_mem_nil, or_false] at hi
      rcases hi with rfl
      omega
    rw [show (List.range 4).drop (4 - 5) = [(0 : Nat), 1, 2, 3] from rfl, hsplit,
      List.findSome?_append, hnone _ hneg, Option.none_or, hmap]
  | n + 5 =>
    rw [show n + 5 - 5 = n from by omega, List.range_add,
      List.drop_left' (List.length_range n)]
    have h2 : (List.range 5).map (n + ·) = [n, n + 1, n + 2, n + 3, n + 4] := by
      rw [show List.range 5 = [0, 1, 2, 3, 4] from rfl]
      simp
    rw [h2]
    have h3 : [((n + 5 : Nat) : Int) - 5, ((n + 5 : Nat) : Int) - 4, ((n + 5 : Nat) : Int) - 3,
        ((n + 5 : Nat) : Int) - 2, ((n + 5 : Nat) : Int) - 1] =
        [n, n + 1, n + 2, n + 3, n + 4].map Int.ofNat := by
      simp only [Int.ofNat_eq_coe, List.map_cons, List.map_nil, List.cons.injEq, true_and,
        and_true]
      push_cast
      all_goals omega
    rw [h3, hmap]

/-- A one-element list probe is just the probe. -/
theorem findSome?_singleton {β : Type} (f : Int → Option β) (x : Int) :
    [x].findSome? f = f x := by
  rw [List.findSome?_cons]
  cases hfx : f x <;> rfl

/-- Claim C1: with the document date present, the Date Resolution Cascade
consults candidate rows (at the fixed column) in exactly the claimed priority
order — the header row itself, then offsets `+1, -1, +2, -2, +3`, then the
rows from `header-5` up to `header-1` ascending — and returns the first
successfully parsed date, or absent when every probe fails. -/
theorem c1_theorem (table : Grid) (h c : Nat) (dd : DDate) :
    extract_forecast_date_universal table h c (some dd) =
      (cascadeClaimOrder h).findSome? (tryRowDate table c dd.year) := by
  have hb2 := block2_generic (tryRowDate table c dd.year) h
  have hb3 := block3_generic (tryRowDate table c dd.year)
    (fun i hi => tryRowDate_neg table c dd.year hi) h
  have hsplit : cascadeClaimOrder h =
      [(h : Int)] ++
        ([(h : Int) + 1, (h : Int) - 1, (h : Int) + 2, (h : Int) - 2, (h : Int) + 3] ++
          [(h : Int) - 5, (h : Int) - 4, (h : Int) - 3, (h : Int) - 2, (h : Int) - 1]) := rfl
  rw [hsplit, List.findSome?_append, List.findSome?_append, ← hb2, ← hb3,
    findSome?_singleton]
  simp only [extract_forecast_date_universal]
  cases h1 : tryRowDate table c dd.year ((h : Nat) : Int) with
  | some d => rfl
  | none =>
    rw [Option.none_or]
    cases h2 : [(1 : Int), -1, 2, -2, 3].findSome?
        (fun o => tryRowDate table c dd.year (Int.ofNat h + o)) with
    | some d => rfl
    | none => rw [Option.none_or]

/-- A guarded scan over a list probes exactly the elements passing the
guard, in order. -/
theorem findSome?_guard {α β : Type} (p : α → Bool) (f : α → Option β) :
    ∀ l : List α, (l.findSome? fun a => if p a then f a else none) =
      (l.filter p).findSome? f := by
  intro l
  induction l with
  | nil => rfl
  | cons a t ih =>
    by_cases hpa : p a = true
    · simp [List.findSome?_cons, hpa, ih]
    · simp [List.findSome?_cons, hpa, ih]

/-- Claim C4 (amended): within one header candidate the locator does not stop
at the first metric-matching column — it scans the header row left to right
and attempts the intersection read at every metric-matching column in order,
first full success winning, before moving to the next header candidate. -/
theorem c4_theorem : ∀ (doc : Document) (table : Grid) (tRow : Row) (hIdx : Nat) (hRow : Row),
    scanColumns doc table tRow hIdx hRow =
      ((hRow.enum).filter (fun p => cellMatches TARGET_COLUMN_KEYWORDS p.2)).findSome?
        (fun p => tryIntersect doc table tRow hIdx p.1) := by
  intro doc table tRow hIdx hRow
  unfold scanColumns
  exact findSome?_guard _ _ _

/-- Claim C4 as stated fails: on `doc4` the first metric-matching column of
the single header candidate is column 0, whose data cell `財政` has no
digits; the code then tries the next metric-matching column of the same
header row and succeeds at column 1, while a locator reading only the first
matching column per candidate (as the claim demands) extracts nothing. -/
theorem c4_counterexample :
    find_fiscal_forecast_value doc4 = (some 7312, some "2024-07-03") ∧
      claimFind doc4 = (none, none) := by
  exact ⟨by decide, by decide⟩

/-- Claim C8: each processed document either yields both a value and a date,
or yields nothing at all — `find_fiscal_forecast_value` never returns a
mixed pair, and `create_mapped_data` emits a record exactly in the first
case, with no null field possible. -/
theorem c8_theorem : ∀ doc : Document,
    (find_fiscal_forecast_value doc = (none, none) ∧ create_mapped_data doc = none) ∨
      ∃ v d, find_fiscal_forecast_value doc = (some v, some d) ∧
        create_mapped_data doc = some ⟨d, v⟩ := by
  intro doc
  unfold create_mapped_data find_fiscal_forecast_value
  cases hf : doc.tables.findSome? (fun table => tryTable doc table) with
  | none => left; simp
  | some vd =>
    obtain ⟨v, d⟩ := vd
    right
    exact ⟨v, d, rfl, rfl⟩

/-- Claim C3 (amended): no publication-date fallback exists — whenever the
cascade never succeeds for any header candidate (so the locator's date
component is absent), `create_mapped_data` returns no result at all and the
document is skipped; the document date is never substituted. -/
theorem c3_theorem : ∀ doc : Document,
    (find_fiscal_forecast_value doc).2 = none → create_mapped_data doc = none := by
  intro doc hsnd
  unfold create_mapped_data
  unfold find_fiscal_forecast_value at hsnd ⊢
  cases hf : doc.tables.findSome? (fun table => tryTable doc table) with
  | none => rfl
  | some vd =>
    obtain ⟨v, d⟩ := vd
    rw [hf] at hsnd
    simp at hsnd

/-- Witness for claim C3's amended theorem at the concrete document `docC`. -/
theorem c3_witness :
    (find_fiscal_forecast_value docC).2 = none ∧ create_mapped_data docC = none := by
  exact ⟨by decide, c3_theorem docC (by decide)⟩

/-- Claim C3 as stated fails: in `docC` a numeric intersection value is
located (the cell `財政 7` cleans to `7`) and the publication date is
present, yet no cascade probe ever parses a date, and the caller emits no
`ExtractionResult` at all — it does not fall back to the publication date. -/
theorem c3_counterexample :
    create_mapped_data docC = none ∧ clean_numeric_value "財政 7" = some 7 ∧
      docC.docDate = some ⟨2024, 5, 16⟩ := by
  exact ⟨by decide, by decide, rfl⟩

/-- Claim C10: when the document-level date resolver yields absent, the
cascade returns absent for every grid, header row and column, before
examining any candidate cell — even though a cell such as `10月3日` would
parse on its own given a reference year. -/
theorem c10_theorem :
    (∀ (table : Grid) (h c : Nat), extract_forecast_date_universal table h c none = none) ∧
      extract_date_from_cell "10月3日" 2024 = some "2024-10-03" := by
  exact ⟨fun _ _ _ => rfl, by decide⟩

/-- Claim C6: the cell-date resolver's result is exactly determined by the
parse — whenever the pattern parses to `(month, day)`, the resolver returns
the ISO form of `(reference year, month, day)` if that combination is a valid
calendar date and absent if it is not (so a valid combination always yields
exactly that date, never a clamped or wrapped one), and it returns absent
whenever nothing parses; in particular day 31 of April and day 30 of
February yield absent, and February 29 resolves only in a leap year. -/
theorem c6_theorem :
    (∀ (s : String) (y m d : Nat), findMonthDay s = some (m, d) →
      extract_date_from_cell s y =
        if isValidDate y m d then some (isoFormat y m d) else none) ∧
    (∀ (s : String) (y : Nat), findMonthDay s = none →
      extract_date_from_cell s y = none) ∧
    extract_date_from_cell "4月31日" 2024 = none ∧
    extract_date_from_cell "2月30日" 2024 = none ∧
    extract_date_from_cell "2月29日" 2024 = some "2024-02-29" ∧
    extract_date_from_cell "2月29日" 2023 = none := by
  refine ⟨?_, ?_, by decide, by decide, by decide, by decide⟩
  · intro s y m d hmd
    have hne : s.data.isEmpty = false := by
      cases hsd : s.data with
      | nil =>
        rw [show findMonthDay s = searchMonthDay s.data from rfl, hsd] at hmd
        exact absurd hmd (by simp [searchMonthDay])
      | cons a t => rfl
    unfold extract_date_from_cell
    rw [hne]
    simp only [Bool.false_eq_true, if_false]
    rw [hmd]
  · intro s y hnone
    unfold extract_date_from_cell
    by_cases he : s.data.isEmpty = true
    · rw [if_pos he]
    · rw [if_neg he, hnone]

/-- Witness for claim C6's theorem: the parse-and-validate branch at the
valid in-range date `6月15日` and the no-parse branch at a dateless cell. -/
theorem c6_witness :
    extract_date_from_cell "6月15日" 2024 =
      (if isValidDate 2024 6 15 then some (isoFormat 2024 6 15) else none) ∧
      extract_date_from_cell "x" 2024 = none := by
  exact ⟨c6_theorem.1 "6月15日" 2024 6 15 (by decide), c6_theorem.2.1 "x" 2024 (by decide)⟩

/-- Characterization of the `enumerate(table)` scan for the data row: from
start index `k`, it returns exactly the first subject-matching row, with its
absolute index. -/
theorem findTargetRowAux_iff (l : List Row) : ∀ (k i : Nat) (r : Row),
    findTargetRowAux k l = some (i, r) ↔
      ∃ j, i = k + j ∧ l[j]? = some r ∧ rowMatches TARGET_ROW_KEYWORDS r = true ∧
        ∀ j' r', j' < j → l[j']? = some r' → rowMatches TARGET_ROW_KEYWORDS r' = false := by
  induction l with
  | nil =>
    intro k i r
    simp [findTargetRowAux]
  | cons a t ih =>
    intro k i r
    by_cases ha : rowMatches TARGET_ROW_KEYWORDS a = true
    · rw [show findTargetRowAux k (a :: t) = some (k, a) from by
        simp only [findTargetRowAux]; rw [if_pos ha]]
      constructor
      · intro hsome
        have hk : k = i ∧ a = r := by
          have := Option.some.inj hsome
          exact ⟨congrArg Prod.fst this, congrArg Prod.snd this⟩
        obtain ⟨hk1, hk2⟩ := hk
        subst hk1
        subst hk2
        exact ⟨0, by omega, by simp, ha, by omega⟩
      · rintro ⟨j, hij, hget, hm, hfirst⟩
        cases j with
        | zero =>
          have : a = r := by simpa using hget
          subst this
          have : i = k := by omega
          subst this
          rfl
        | succ jj =>
          have := hfirst 0 a (by omega) (by simp)
          rw [ha] at this
          exact absurd this (by simp)
    · rw [show findTargetRowAux k (a :: t) = findTargetRowAux (k + 1) t from by
        simp only [findTargetRowAux]; rw [if_neg ha]]
      rw [ih (k + 1) i r]
      constructor
      · rintro ⟨j, hij, hget, hm, hfirst⟩
        refine ⟨j + 1, by omega, by simpa using hget, hm, ?_⟩
        intro j' r' hj' hg
        cases j' with
        | zero =>
          have : a = r' := by simpa using hg
          subst this
          exact Bool.eq_false_iff.mpr ha
        | succ jj =>
          exact hfirst jj r' (by omega) (by simpa using hg)
      · rintro ⟨j, hij, hget, hm, hfirst⟩
        cases j with
        | zero =>
          have : a = r := by simpa using hget
          subst this
          exact absurd hm ha
        | succ jj =>
          refine ⟨jj, by omega, by simpa using hget, hm, ?_⟩
          intro j' r' hj' hg
          exact hfirst (j' + 1) r' (by omega) (by simpa using hg)

/-- The data row of a grid is exactly the first subject-matching row. -/
theorem findTargetRow_iff (table : Grid) (i : Nat) (r : Row) :
    findTargetRow table = some (i, r) ↔
      table[i]? = some r ∧ rowMatches TARGET_ROW_KEYWORDS r = true ∧
        ∀ j r', j < i → table[j]? = some r' → rowMatches TARGET_ROW_KEYWORDS r' = false := by
  unfold findTargetRow
  rw [findTargetRowAux_iff]
  constructor
  · rintro ⟨j, hij, hget, hm, hfirst⟩
    have : j = i := by omega
    subst this
    exact ⟨hget, hm, hfirst⟩
  · rintro ⟨hget, hm, hfirst⟩
    exact ⟨i, by omega, hget, hm, hfirst⟩

/-- The header candidates of a grid are exactly the metric-matching rows
among the first 40. -/
theorem headerCandidates_iff (table : Grid) (i : Nat) (r : Row) :
    (i, r) ∈ headerCandidates table ↔
      i < 40 ∧ table[i]? = some r ∧ rowMatches TARGET_COLUMN_KEYWORDS r = true := by
  unfold headerCandidates
  rw [List.mem_filter, List.mk_mem_enum_iff_getElem?]
  constructor
  · rintro ⟨hget, hmatch⟩
    have hi : i < 40 := by
      have h1 := List.getElem?_eq_some_iff.mp hget
      obtain ⟨hlt, _⟩ := h1
      have h2 : (table.take 40).length ≤ 40 := by
        rw [List.length_take]
        omega
      omega
    refine ⟨hi, ?_, hmatch⟩
    rw [← List.getElem?_take_of_lt hi]
    exact hget
  · rintro ⟨hi, hget, hmatch⟩
    refine ⟨?_, hmatch⟩
    rw [List.getElem?_take_of_lt hi]
    exact hget

/-- Claim C5: the locator records every metric-matching row among the first
40 rows as a header candidate (not stopping at the first); the data row is
the first subject-matching row of the whole grid; a grid with no data row
yields no result; and only header candidates strictly above the data row are
scanned. -/
theorem c5_theorem :
    (∀ (table : Grid) (i : Nat) (r : Row), (i, r) ∈ headerCandidates table ↔
      i < 40 ∧ table[i]? = some r ∧ rowMatches TARGET_COLUMN_KEYWORDS r = true) ∧
    (∀ (table : Grid) (i : Nat) (r : Row), findTargetRow table = some (i, r) ↔
      table[i]? = some r ∧ rowMatches TARGET_ROW_KEYWORDS r = true ∧
        ∀ j r', j < i → table[j]? = some r' → rowMatches TARGET_ROW_KEYWORDS r' = false) ∧
    (∀ (doc : Document) (table : Grid), findTargetRow table = none →
      tryTable doc table = none) ∧
    (∀ (doc : Document) (table : Grid) (tIdx : Nat) (tRow : Row), 2 ≤ table.length →
      findTargetRow table = some (tIdx, tRow) →
      tryTable doc table =
        ((headerCandidates table).filter (fun p => decide (p.1 < tIdx))).findSome?
          (fun p => scanColumns doc table tRow p.1 p.2)) := by
  refine ⟨headerCandidates_iff, findTargetRow_iff, ?_, ?_⟩
  · intro doc table hnone
    unfold tryTable
    by_cases hlen : table.length < 2
    · rw [if_pos hlen]
    · rw [if_neg hlen, hnone]
  · intro doc table tIdx tRow hlen hfind
    unfold tryTable
    rw [if_neg (by omega), hfind, ← findSome?_guard]
    show (headerCandidates table).findSome? (fun p => tryCandidate doc table tRow tIdx p.1 p.2) = _
    congr 1
    funext p
    unfold tryCandidate
    by_cases hp : tIdx ≤ p.1
    · rw [if_pos hp, if_neg]
      simp only [decide_eq_true_eq]
      omega
    · rw [if_neg hp, if_pos]
      simp only [decide_eq_true_eq]
      omega

/-- Witness for claim C5's theorem: the no-data-row part at a grid without
the subject keyword, and the strictly-above filter part at the end-to-end
grid `gridA`, whose data row has index 1. -/
theorem c5_witness :
    tryTable docA [[some "a"], [some "b"]] = none ∧
      tryTable docA gridA =
        ((headerCandidates gridA).filter (fun p => decide (p.1 < 1))).findSome?
          (fun p => scanColumns docA gridA rowA1 p.1 p.2) := by
  exact ⟨c5_theorem.2.2.1 docA [[some "a"], [some "b"]] (by decide),
    c5_theorem.2.2.2 docA gridA 1 rowA1 (by decide) (by decide)⟩

/-- Skip-and-continue over a batch of documents that all open: one record per
document whose extraction succeeds, in processing order. -/
theorem processMultiplePdfs_oks (docs : List Document) :
    processMultiplePdfs (docs.map Except.ok) =
      Except.ok (docs.filterMap create_mapped_data) := by
  induction docs with
  | nil => rfl
  | cons d t ih =>
    show (match createMappedDataE (Except.ok d) with
      | Except.error e => Except.error e
      | Except.ok none => processMultiplePdfs (t.map Except.ok)
      | Except.ok (some r) =>
        match processMultiplePdfs (t.map Except.ok) with
        | Except.error e => Except.error e
        | Except.ok ds => Except.ok (r :: ds)) = _
    rw [show createMappedDataE (Except.ok d) = Except.ok (create_mapped_data d) from rfl, ih]
    cases hc : create_mapped_data d with
    | none => simp [List.filterMap_cons, hc]
    | some r => simp [List.filterMap_cons, hc]

/-- A document-open failure is uncaught: the first erroring document aborts
the whole batch, whatever follows it. -/
theorem processMultiplePdfs_err (docs : List Document) (e : Unit)
    (rest : List (Except Unit Document)) :
    processMultiplePdfs (docs.map Except.ok ++ Except.error e :: rest) = Except.error e := by
  induction docs with
  | nil => rfl
  | cons d t ih =>
    show (match createMappedDataE (Except.ok d) with
      | Except.error e' => Except.error e'
      | Except.ok none => processMultiplePdfs (t.map Except.ok ++ Except.error e :: rest)
      | Except.ok (some r) =>
        match processMultiplePdfs (t.map Except.ok ++ Except.error e :: rest) with
        | Except.error e' => Except.error e'
        | Except.ok ds => Except.ok (r :: ds)) = _
    rw [show createMappedDataE (Except.ok d) = Except.ok (create_mapped_data d) from rfl, ih]
    cases hc : create_mapped_data d <;> rfl

/-- Claim C7 (amended): a not-found failure inside the Locator or Resolvers
is represented as an absent result and converted to skipping that document,
so an all-openable batch yields exactly the successful records in order; but
a document-open failure is an uncaught exception that aborts the entire
batch instead of being skipped. -/
theorem c7_theorem :
    (∀ docs : List Document, processMultiplePdfs (docs.map Except.ok) =
      Except.ok (docs.filterMap create_mapped_data)) ∧
    (∀ (docs : List Document) (e : Unit) (rest : List (Except Unit Document)),
      processMultiplePdfs (docs.map Except.ok ++ Except.error e :: rest) =
        Except.error e) := by
  exact ⟨processMultiplePdfs_oks, processMultiplePdfs_err⟩

/-- Claim C7 as stated fails: a batch whose first document fails to open
aborts with the error — the remaining document, which would succeed, is
never processed, instead of the failure being converted into a skip. -/
theorem c7_counterexample :
    processMultiplePdfs [Except.error (), Except.ok docA] = Except.error () ∧
      createMappedDataE (Except.ok docA) = Except.ok (some resA) := by
  exact ⟨rfl, rfl⟩

/-- The sequential writes of the data-line loop equal the newline-joined
data lines. -/
theorem dataLines_eq : ∀ (rows : List MappedData) (acc : String),
    rows.foldl (fun acc r => acc ++ (r.date ++ "," ++ toString r.value ++ "\n")) acc =
      acc ++ rows.foldr (fun r b => r.date ++ "," ++ toString r.value ++ "\n" ++ b) "" := by
  intro rows
  induction rows with
  | nil =>
    intro acc
    rw [List.foldl_nil, List.foldr_nil, String.append_empty]
  | cons r t ih =>
    intro acc
    rw [List.foldl_cons, List.foldr_cons, ih, String.append_assoc]

/-- Claim C9: the serialized file is exactly the label line `,HEADER_1`, the
label line `,HEADER_2`, and then one `date,value` line per successfully
processed document, in processing order (never deduplicated or sorted, one
record per success); a batch of one success and one not-found document
serializes to exactly 3 lines. -/
theorem c9_theorem :
    (∀ rows : List MappedData, saveCustomCsv rows =
      linesJoined (("," ++ HEADER_1) :: ("," ++ HEADER_2) ::
        rows.map (fun r => r.date ++ "," ++ toString r.value))) ∧
    (∀ docs : List Document, processMultiplePdfs (docs.map Except.ok) =
      Except.ok (docs.filterMap create_mapped_data)) ∧
    processMultiplePdfs [Except.ok docA, Except.ok docB] = Except.ok [resA] ∧
    saveCustomCsv [resA] =
      linesJoined [",UYTCAB.DEMANDFORECAST.CHANGECURRBAL.JPN.B",
        ",Supply and demand forecast: Change in current account balance",
        "2024-10-03,-1234"] ∧
    ([",UYTCAB.DEMANDFORECAST.CHANGECURRBAL.JPN.B",
      ",Supply and demand forecast: Change in current account balance",
      "2024-10-03,-1234"].all (fun l => !l.data.contains '\n')) = true := by
  refine ⟨?_, processMultiplePdfs_oks, rfl, by decide, by decide⟩
  intro rows
  unfold saveCustomCsv dataLines linesJoined
  rw [dataLines_eq rows "", String.empty_append, List.foldr_cons, List.foldr_cons,
    List.foldr_map]
